import Mathlib

/-!
Verification of the honk-overlay entity lifecycle and simulation core.

The development shallowly embeds the two source files:
* `src/horn.js` — the `Horn` entity class: constructor (randomized kinematic
  parameters, TTL, spawn position and velocity), `shouldUpdate`, `update`,
  `draw`.
* the main script — asset selection and spawning in `handleMessage`, and the
  per-frame `draw` loop (prune, update+render, timestamp bookkeeping).

Numeric state is modelled over an arbitrary linear ordered field so that the
frame-driver and per-entity update claims can be settled executably over `ℚ`,
while the constructor — which uses `Math.sin`, `Math.cos` and `Math.PI` —
is embedded over `ℝ`.  `Math.random()` draws and clock reads are passed in
explicitly, one parameter per call site, in source order.
-/

namespace HonkOverlay

/-- A 2D point or vector, as the `{x, y}` object literals of the source. -/
structure Vec2 (α : Type) where
  x : α
  y : α
deriving DecidableEq

/-- The relevant JavaScript runtime values that can be handed to the `Horn`
constructor: a `CanvasRenderingContext2D` (carrying its canvas dimensions),
an `HTMLImageElement` (carrying its intrinsic dimensions), `undefined`/`null`,
or any other object.  Only the first two pass the constructor's
`instanceof` guards. -/
inductive JSObject (α : Type) where
  | canvasContext (canvasWidth canvasHeight : α)
  | imageElement (imageWidth imageHeight : α)
  | nullish
  | plainObject
deriving DecidableEq

/-- The fields assigned by the `Horn` constructor (`this.context`,
`this.image`, `this.width`, `this.height`, `this.createdAt`,
`this.timeToLive`, `this.position`, `this.velocity`, `this.rotationSpeed`,
`this.rotation`). -/
structure Horn (α : Type) where
  context : JSObject α
  image : JSObject α
  width : α
  height : α
  createdAt : α
  timeToLive : α
  position : Vec2 α
  velocity : Vec2 α
  rotationSpeed : α
  rotation : α
deriving DecidableEq

variable {α : Type} [LinearOrderedField α]

/-- `Horn.shouldUpdate`: `performance.now() - this.createdAt < this.timeToLive`,
with the clock read passed in as `now`. -/
def shouldUpdate (h : Horn α) (now : α) : Bool :=
  decide (now - h.createdAt < h.timeToLive)

/-- `Horn.update(deltaTime)`: integrates position by `velocity * dt/1000` and
rotation by `rotationSpeed * dt/1000`. -/
def update (h : Horn α) (deltaTime : α) : Horn α :=
  let dtInSeconds := deltaTime / 1000
  { h with
    position := ⟨h.position.x + h.velocity.x * dtInSeconds,
                 h.position.y + h.velocity.y * dtInSeconds⟩
    rotation := h.rotation + h.rotationSpeed * dtInSeconds }

/-- Transform operations applied to a canvas context between save/restore. -/
inductive CanvasOp (α : Type) where
  | translate (x y : α)
  | rotate (angle : α)
deriving DecidableEq

/-- A recorded `drawImage(image, dx, dy, dw, dh)` call. -/
structure DrawCall (α : Type) where
  image : JSObject α
  dx : α
  dy : α
  dw : α
  dh : α
deriving DecidableEq

/-- The observable state of the rendering surface: the current transform
(as the list of ops applied since the last reset), the saved-state stack
maintained by `save`/`restore`, and the log of draw calls. -/
structure Surface (α : Type) where
  transform : List (CanvasOp α)
  stack : List (List (CanvasOp α))
  drawn : List (DrawCall α)
deriving DecidableEq

/-- `context.save()`: pushes the current transform state onto the stack. -/
def Surface.save (s : Surface α) : Surface α :=
  { s with stack := s.transform :: s.stack }

/-- `context.translate(x, y)`. -/
def Surface.translate (s : Surface α) (x y : α) : Surface α :=
  { s with transform := s.transform ++ [CanvasOp.translate x y] }

/-- `context.rotate(angle)`. -/
def Surface.rotate (s : Surface α) (angle : α) : Surface α :=
  { s with transform := s.transform ++ [CanvasOp.rotate angle] }

/-- `context.drawImage(image, dx, dy, dw, dh)`. -/
def Surface.drawImage (s : Surface α) (image : JSObject α) (dx dy dw dh : α) :
    Surface α :=
  { s with drawn := s.drawn ++ [⟨image, dx, dy, dw, dh⟩] }

/-- `context.restore()`: pops the top saved state (a no-op on an empty
stack, as specified for the canvas API). -/
def Surface.restore (s : Surface α) : Surface α :=
  match s.stack with
  | [] => s
  | t :: rest => { s with transform := t, stack := rest }

/-- `Horn.draw()`: `save`; `translate(position.x, position.y)`;
`rotate(rotation)`; `drawImage(image, -width/2, -height/2, width, height)`;
`restore`.  The host's `drawImage` may throw (e.g. a broken image); the flag
`drawImageThrows` models that outcome.  The returned `Bool` is whether an
exception escaped the call; when it does, execution aborts before
`restore`, exactly as in the source, which has no `try`/`finally`. -/
def hornDraw (h : Horn α) (s : Surface α) (drawImageThrows : Bool) :
    Surface α × Bool :=
  let s1 := ((s.save).translate h.position.x h.position.y).rotate h.rotation
  if drawImageThrows then
    (s1, true)
  else
    ((s1.drawImage h.image (-h.width / 2) (-h.height / 2) h.width h.height).restore,
     false)

/-- The observable per-entity calls made by one pass of the frame loop. -/
inductive TickEvent (α : Type) where
  | advance (h : Horn α) (dt : α)
  | render (h : Horn α)
deriving DecidableEq

/-- The frame driver's mutable state: the `horns` array and `lastTime`. -/
structure DriverState (α : Type) where
  horns : List (Horn α)
  lastTime : α
deriving DecidableEq

/-- One pass of the `draw(time)` animation-loop body (after the resize and
clear steps, which do not touch driver state): filter `horns` by
`shouldUpdate` (the clock read during filtering is passed as `now`), then for
each survivor call `update(dt)` immediately followed by `draw()` with
`dt = time - lastTime`, and finally set `lastTime = time`.  Returns the new
driver state together with the ordered trace of per-entity calls. -/
def tick (s : DriverState α) (time now : α) :
    DriverState α × List (TickEvent α) :=
  let survivors := s.horns.filter (fun h => shouldUpdate h now)
  let dt := time - s.lastTime
  ({ horns := survivors.map (fun h => update h dt), lastTime := time },
   survivors.flatMap (fun h => [TickEvent.advance h dt, TickEvent.render (update h dt)]))

/-- The optional `options` argument of the `Horn` constructor; `none` for a
field means the property is absent and the destructuring default applies. -/
structure Options where
  width : Option ℝ := none
  height : Option ℝ := none
  minTTL : Option ℝ := none
  maxTTL : Option ℝ := none
  maxRotationSpeed : Option ℝ := none

/-- The six `Math.random()` draws of the `Horn` constructor, in call order:
the angle offset (line 31), the speed (line 33), the side pick (line 35),
the time-to-live (line 61), the spawn `y` (line 66) and the rotation speed
(line 76). -/
structure Rand where
  angleOffsetDraw : ℝ
  speedDraw : ℝ
  isLeftDraw : ℝ
  ttlDraw : ℝ
  yDraw : ℝ
  rotationDraw : ℝ

/-- The `TypeError`s the `Horn` constructor can throw. -/
inductive HornError where
  | notCanvasContext
  | notImageElement
deriving DecidableEq

/-- The body of the `Horn` constructor after both `instanceof` guards have
passed: derives every field from the canvas dimensions, the image's intrinsic
dimensions, the options (with destructuring defaults) and the six random
draws; `now` is the `performance.now()` read for `createdAt`. -/
noncomputable def buildHorn (context image : JSObject ℝ)
    (canvasWidth canvasHeight imageWidth imageHeight : ℝ)
    (options : Options) (rnd : Rand) (now : ℝ) : Horn ℝ :=
  let angleOffset := (rnd.angleOffsetDraw - 0.5) * (Real.pi / 2)
  let speed := rnd.speedDraw * canvasWidth
  let isLeftNum : ℝ := if rnd.isLeftDraw < 0.5 then 1 else 0
  let angle := Real.pi * (isLeftNum + 0.5) + angleOffset
  let aspect := imageHeight / imageWidth
  let width := options.width.getD 48
  let height := options.height.getD (width * aspect)
  let minTTL := options.minTTL.getD 3000
  let maxTTL := options.maxTTL.getD 5000
  let maxRotationSpeed := options.maxRotationSpeed.getD 4
  { context := context
    image := image
    width := width
    height := height
    createdAt := now
    timeToLive := minTTL + rnd.ttlDraw * (maxTTL - minTTL)
    position := ⟨isLeftNum * canvasWidth,
                 canvasHeight / 2 + (rnd.yDraw - 0.5) * (canvasHeight / 2)⟩
    velocity := ⟨Real.sin angle * speed, Real.cos angle * speed⟩
    rotationSpeed := (rnd.rotationDraw * 4 - 2) * Real.pi * maxRotationSpeed
    rotation := 0 }

/-- `new Horn(context, image, options)`: the `instanceof CanvasRenderingContext2D`
guard on `context`, then the `instanceof HTMLImageElement` guard on `image`,
then the field derivation of `buildHorn`.  A failed guard throws a
`TypeError`, modelled as `Except.error`. -/
noncomputable def mkHorn (context image : JSObject ℝ) (options : Options)
    (rnd : Rand) (now : ℝ) : Except HornError (Horn ℝ) :=
  match context with
  | JSObject.canvasContext cw ch =>
    match image with
    | JSObject.imageElement iw ih =>
      Except.ok (buildHorn context image cw ch iw ih options rnd now)
    | _ => Except.error HornError.notImageElement
  | _ => Except.error HornError.notCanvasContext

/-- Whether a runtime value passes the constructor's context guard. -/
def isCanvasContext : JSObject ℝ → Bool
  | JSObject.canvasContext _ _ => true
  | _ => false

/-- Whether a runtime value passes the constructor's image guard. -/
def isImageElement : JSObject ℝ → Bool
  | JSObject.imageElement _ _ => true
  | _ => false

/-- Whether `needle` is a prefix of `hay`, on character lists. -/
def startsWith : List Char → List Char → Bool
  | [], _ => true
  | _ :: _, [] => false
  | a :: as, b :: bs => a == b && startsWith as bs

/-- Whether `needle` occurs as a contiguous substring of `hay`. -/
def occursIn (needle : List Char) : List Char → Bool
  | [] => startsWith needle []
  | c :: rest => startsWith needle (c :: rest) || occursIn needle rest

/-- The trigger test `/russmoHORN|russmoHONK/.test(message)`: the regex is a
plain alternation of two literals, i.e. a substring test for either. -/
def containsTrigger (message : String) : Bool :=
  occursIn "russmoHORN".toList message.toList ||
    occursIn "russmoHONK".toList message.toList

/-- The sound cues selectable by `handleMessage`. -/
inductive SoundCue where
  | bikeHorn
  | airHorn
  | airHorn2
deriving DecidableEq

/-- The four preloaded horn images, by the names bound in the main script. -/
structure HornImages where
  hornImage : JSObject ℝ
  textHornImage : JSObject ℝ
  clownImage : JSObject ℝ
  twitchHornImage : JSObject ℝ

/-- The `badges` object of a tmi.js userstate, when present. -/
structure Badges where
  broadcaster : Bool

/-- The fields of the tmi.js userstate that `handleMessage` inspects. -/
structure UserState where
  badges : Option Badges
  subscriber : Bool

/-- The image/sound selection of `handleMessage`: clown image and a random
airhorn for the broadcaster, a random horn icon and the bike horn for a
subscriber, the text horn and the bike horn otherwise.  `selDraw` is the
single `Math.random()` call of whichever branch is taken. -/
noncomputable def selectImageSound (imgs : HornImages) (userstate : UserState)
    (selDraw : ℝ) : JSObject ℝ × SoundCue :=
  let isBroadcaster : Bool :=
    match userstate.badges with
    | some b => b.broadcaster
    | none => false
  if isBroadcaster then
    (imgs.clownImage, if selDraw > 0.5 then SoundCue.airHorn else SoundCue.airHorn2)
  else if userstate.subscriber then
    ((if selDraw > 0.5 then imgs.hornImage else imgs.twitchHornImage),
     SoundCue.bikeHorn)
  else
    (imgs.textHornImage, SoundCue.bikeHorn)

/-- The `handleMessage` listener: on a trigger message it selects an image and
a sound, then runs `horns.push(new Horn(canvasContext, image))`, then plays
the sound.  Returns the `horns` array after the call, the exception that
escaped the handler (if any — there is no `try`/`catch`, so a constructor
`TypeError` propagates and the push and the sound play do not happen), and
the sound cue played (if any). -/
noncomputable def handleMessage (horns : List (Horn ℝ))
    (canvasContext : JSObject ℝ) (imgs : HornImages) (userstate : UserState)
    (message : String) (selDraw : ℝ) (rnd : Rand) (now : ℝ) :
    List (Horn ℝ) × Option HornError × Option SoundCue :=
  if containsTrigger message then
    let pick := selectImageSound imgs userstate selDraw
    match mkHorn canvasContext pick.1 {} rnd now with
    | Except.ok h => (horns ++ [h], none, some pick.2)
    | Except.error e => (horns, some e, none)
  else
    (horns, none, none)

/-! ### Concrete sample values used by counterexamples and witnesses -/

/-- A concrete horn over `ℚ` for witnesses: spawned at time 0 with a
3000 ms time to live. -/
def sampleHorn : Horn ℚ :=
  { context := JSObject.canvasContext 800 600
    image := JSObject.imageElement 64 64
    width := 48
    height := 48
    createdAt := 0
    timeToLive := 3000
    position := ⟨0, 300⟩
    velocity := ⟨120, -40⟩
    rotationSpeed := 2
    rotation := 0 }

/-- A fresh rendering surface: identity transform, empty save stack. -/
def sampleSurface : Surface ℚ := ⟨[], [], []⟩

/-- A concrete valid context handle: an 800×600 canvas. -/
noncomputable def ctxSample : JSObject ℝ := JSObject.canvasContext 800 600

/-- A concrete valid image handle with intrinsic size 64×64. -/
noncomputable def imgSample : JSObject ℝ := JSObject.imageElement 64 64

/-- Random draws all equal to 1/2. -/
noncomputable def rndHalf : Rand := ⟨1/2, 1/2, 1/2, 1/2, 1/2, 1/2⟩

/-- An options object with `minTTL = maxTTL = 3000` and all other
properties absent. -/
noncomputable def optsEqualTTL : Options :=
  { minTTL := some 3000, maxTTL := some 3000 }

/-- An options object with every property absent. -/
def optsNone : Options := {}

/-- Image assets where every slot is a valid 64×64 image element. -/
noncomputable def imgsSample : HornImages := ⟨imgSample, imgSample, imgSample, imgSample⟩

/-- A userstate with no badges and no subscription. -/
def usPlain : UserState := ⟨none, false⟩

/-! ### Claim theorems -/

/-- Counting occurrences in a filtered list: an element passing the predicate
keeps its multiplicity, one failing it has multiplicity zero. -/
theorem listCountFilterSplit {β : Type} [DecidableEq β] (p : β → Bool)
    (l : List β) (a : β) :
    (l.filter p).count a = if p a = true then l.count a else 0 := by
  induction l with
  | nil => simp
  | cons b t ih =>
    by_cases hpb : p b = true
    · by_cases hab : a = b
      · subst hab
        simp [List.filter_cons, hpb, List.count_cons, ih]
      · simp [List.filter_cons, hpb, List.count_cons, hab, ih]
    · by_cases hab : a = b
      · subst hab
        simp [List.filter_cons, hpb, List.count_cons, ih]
      · simp [List.filter_cons, hpb, List.count_cons, hab, ih]

/-- C2: `shouldUpdate` returns `true` exactly when `now - spawnTime < timeToLive`;
in particular it is `true` for every clock value in
`[spawnTime, spawnTime + timeToLive)` and `false` for every clock value from
`spawnTime + timeToLive` on, and under a monotonically non-decreasing clock the
alive-to-dead transition happens once and never flips back to `true`. -/
theorem shouldUpdate_alive_iff (h : Horn ℚ) (now later : ℚ) :
    (shouldUpdate h now = true ↔ now - h.createdAt < h.timeToLive) ∧
    (h.createdAt ≤ now → now < h.createdAt + h.timeToLive →
      shouldUpdate h now = true) ∧
    (h.createdAt + h.timeToLive ≤ now → shouldUpdate h now = false) ∧
    (now ≤ later → shouldUpdate h now = false → shouldUpdate h later = false) := by
  simp only [shouldUpdate, decide_eq_true_eq, decide_eq_false_iff_not, not_lt]
  refine ⟨trivial, ?_, ?_, ?_⟩
  · intro h1 h2
    linarith
  · intro h1
    linarith
  · intro h1 h2
    linarith

/-- Witness for `shouldUpdate_alive_iff`: the sample horn (spawned at 0 with a
3000 ms TTL) is alive at clock value 1000. -/
theorem shouldUpdate_alive_iff_witness : shouldUpdate sampleHorn 1000 = true :=
  (shouldUpdate_alive_iff sampleHorn 1000 1000).2.1 (by norm_num [sampleHorn])
    (by norm_num [sampleHorn])

/-- C5: `update(dt)` adds exactly `velocity * dt/1000` to the position and
`rotationSpeed * dt/1000` to the rotation; consequently `update a` followed by
`update b` equals a single `update (a + b)` (exactly, over `ℚ`), and
`update 0` is the identity. -/
theorem update_linear (h : Horn ℚ) (a b : ℚ) :
    ((update h a).position.x = h.position.x + h.velocity.x * (a / 1000)) ∧
    ((update h a).position.y = h.position.y + h.velocity.y * (a / 1000)) ∧
    ((update h a).rotation = h.rotation + h.rotationSpeed * (a / 1000)) ∧
    (update (update h a) b = update h (a + b)) ∧
    (update h 0 = h) := by
  obtain ⟨c, i, w, ht, ca, ttl, ⟨px, py⟩, ⟨vx, vy⟩, rs, r⟩ := h
  refine ⟨rfl, rfl, rfl, ?_, ?_⟩
  · simp only [update, Horn.mk.injEq, Vec2.mk.injEq, true_and, and_true]
    refine ⟨⟨by ring, by ring⟩, by ring⟩
  · simp only [update, Horn.mk.injEq, Vec2.mk.injEq, true_and, and_true]
    norm_num

/-- C10: `update(dt)` modifies only `position.x`, `position.y` and `rotation`:
for every `dt` (zero and negative included) all other fields — `velocity`,
`rotationSpeed`, `width`, `height`, `timeToLive`, `createdAt`, `context` and
`image` — are unchanged. -/
theorem update_preserves_other_fields (h : Horn ℚ) (dt : ℚ) :
    ((update h dt).velocity = h.velocity) ∧
    ((update h dt).rotationSpeed = h.rotationSpeed) ∧
    ((update h dt).width = h.width) ∧
    ((update h dt).height = h.height) ∧
    ((update h dt).timeToLive = h.timeToLive) ∧
    ((update h dt).createdAt = h.createdAt) ∧
    ((update h dt).context = h.context) ∧
    ((update h dt).image = h.image) :=
  ⟨rfl, rfl, rfl, rfl, rfl, rfl, rfl, rfl⟩

/-- C3: one tick first replaces the collection with exactly the entities whose
`shouldUpdate` is `true` at prune time (membership and multiplicity agree —
filtering is the sole removal mechanism), then for each survivor in collection
order emits `advance(dt)` immediately followed by `render()` of that same
entity (update-then-draw pairs, not batched phases), and finally sets
`lastTime` to the tick timestamp. -/
theorem tick_prune_update_render (s : DriverState ℚ) (time now : ℚ) :
    (∀ h : Horn ℚ, h ∈ s.horns.filter (fun h => shouldUpdate h now) ↔
      h ∈ s.horns ∧ shouldUpdate h now = true) ∧
    (∀ h : Horn ℚ, (s.horns.filter (fun h => shouldUpdate h now)).count h =
      if shouldUpdate h now = true then s.horns.count h else 0) ∧
    ((tick s time now).1.horns =
      (s.horns.filter (fun h => shouldUpdate h now)).map
        (fun h => update h (time - s.lastTime))) ∧
    ((tick s time now).2 =
      (s.horns.filter (fun h => shouldUpdate h now)).flatMap
        (fun h => [TickEvent.advance h (time - s.lastTime),
                   TickEvent.render (update h (time - s.lastTime))])) ∧
    ((tick s time now).1.lastTime = time) := by
  refine ⟨fun h => ?_, fun h => ?_, rfl, rfl, rfl⟩
  · simp [List.mem_filter]
  · simpa using listCountFilterSplit (fun h => shouldUpdate h now) s.horns h

/-- C4 counterexample: when the host's `drawImage` throws, `Horn.draw` does
not restore — the saved-state stack is one entry deeper than before the call,
so the stack is not left as it was found regardless of draw success. -/
theorem hornDraw_throw_unbalanced :
    (hornDraw sampleHorn sampleSurface true).1.stack.length ≠
      sampleSurface.stack.length := by
  decide

/-- C4 (amended): when the asset draw succeeds, each `Horn.draw` call leaves
the saved-state stack exactly as it found it (each push matched by a pop), so
any sequence of successful calls leaves the stack unchanged after each call;
but when `drawImage` throws, the restore is skipped and the stack keeps the
extra saved state pushed by that call. -/
theorem hornDraw_success_balanced (hs : List (Horn ℚ)) (h : Horn ℚ)
    (s : Surface ℚ) :
    ((hornDraw h s false).1.stack = s.stack) ∧
    ((hornDraw h s false).2 = false) ∧
    ((hs.foldl (fun acc hh => (hornDraw hh acc false).1) s).stack = s.stack) ∧
    ((hornDraw h s true).1.stack = s.transform :: s.stack) := by
  refine ⟨rfl, rfl, ?_, rfl⟩
  induction hs generalizing s with
  | nil => rfl
  | cons hh t ih =>
    rw [List.foldl_cons, ih]
    rfl

/-- C6 counterexample: the constructor accepts `minTTL = maxTTL = 3000`
(it validates nothing about the options), and then the generated
`timeToLive` equals `3000`, violating `timeToLive < maxTTL`: the claimed
bounds do not hold for every accepted configuration. -/
theorem mkHorn_ttl_at_equal_bounds :
    (mkHorn ctxSample imgSample optsEqualTTL rndHalf 0).map
        (fun h => h.timeToLive) = Except.ok 3000 ∧
      ¬ (3000 : ℝ) < 3000 := by
  constructor
  · simp only [ctxSample, imgSample, mkHorn, buildHorn, optsEqualTTL, rndHalf,
      Except.map, Option.getD_some]
    norm_num
  · norm_num

/-- C6 (amended): for every configuration with resolved `minTTL < maxTTL`
(defaults 3000 and 5000) that passes the constructor's guards, and every
TTL draw in `[0, 1)`, the generated `timeToLive` satisfies
`minTTL ≤ timeToLive < maxTTL`. -/
theorem mkHorn_ttl_in_range (context image : JSObject ℝ) (options : Options)
    (rnd : Rand) (now : ℝ) (h : Horn ℝ)
    (hok : mkHorn context image options rnd now = Except.ok h)
    (hlt : options.minTTL.getD 3000 < options.maxTTL.getD 5000)
    (hr0 : 0 ≤ rnd.ttlDraw) (hr1 : rnd.ttlDraw < 1) :
    options.minTTL.getD 3000 ≤ h.timeToLive ∧
      h.timeToLive < options.maxTTL.getD 5000 := by
  cases context <;> cases image <;> simp only [mkHorn, Except.ok.injEq,
    reduceCtorEq] at hok
  subst hok
  simp only [buildHorn]
  constructor
  · nlinarith
  · nlinarith

/-- Witness for `mkHorn_ttl_in_range`: default options (minTTL 3000,
maxTTL 5000) and a TTL draw of 1/2. -/
theorem mkHorn_ttl_in_range_witness :
    optsNone.minTTL.getD 3000 ≤
        (buildHorn ctxSample imgSample 800 600 64 64 optsNone rndHalf
          0).timeToLive ∧
      (buildHorn ctxSample imgSample 800 600 64 64 optsNone rndHalf
          0).timeToLive < optsNone.maxTTL.getD 5000 :=
  mkHorn_ttl_in_range ctxSample imgSample optsNone rndHalf 0
    (buildHorn ctxSample imgSample 800 600 64 64 optsNone rndHalf 0) rfl
    (by norm_num [optsNone]) (by norm_num [rndHalf]) (by norm_num [rndHalf])

/-- C7: for every surface size with `0 ≤ H` and every value of the random
draws (the `y` draw in `[0, 1)`), the spawn `x` is exactly `W` when the side
flag (`isLeft`, i.e. the side draw below 0.5) is set and exactly `0`
otherwise, and the spawn `y` lies in `[H/4, 3H/4]`. -/
theorem mkHorn_spawn_position (cw ch iw ih : ℝ) (options : Options)
    (rnd : Rand) (now : ℝ) (h : Horn ℝ)
    (hok : mkHorn (JSObject.canvasContext cw ch) (JSObject.imageElement iw ih)
      options rnd now = Except.ok h)
    (hch : 0 ≤ ch) (hy0 : 0 ≤ rnd.yDraw) (hy1 : rnd.yDraw < 1) :
    (rnd.isLeftDraw < 0.5 → h.position.x = cw) ∧
    (¬ rnd.isLeftDraw < 0.5 → h.position.x = 0) ∧
    ch / 4 ≤ h.position.y ∧ h.position.y ≤ 3 * ch / 4 := by
  simp only [mkHorn, Except.ok.injEq] at hok
  subst hok
  simp only [buildHorn]
  refine ⟨fun hl => ?_, fun hl => ?_, ?_, ?_⟩
  · rw [if_pos hl, one_mul]
  · rw [if_neg hl, zero_mul]
  · nlinarith
  · nlinarith

/-- Witness for `mkHorn_spawn_position`: on a 800 by 600 surface with the
`y` draw at 1/2 the spawn `y` lies within the middle half of the height. -/
theorem mkHorn_spawn_position_witness :
    (600 : ℝ) / 4 ≤
        (buildHorn (JSObject.canvasContext 800 600) (JSObject.imageElement 64 64)
          800 600 64 64 optsNone rndHalf 0).position.y ∧
      (buildHorn (JSObject.canvasContext 800 600) (JSObject.imageElement 64 64)
          800 600 64 64 optsNone rndHalf 0).position.y ≤ 3 * 600 / 4 :=
  (mkHorn_spawn_position 800 600 64 64 optsNone rndHalf 0
    (buildHorn (JSObject.canvasContext 800 600) (JSObject.imageElement 64 64)
      800 600 64 64 optsNone rndHalf 0) rfl (by norm_num) (by norm_num [rndHalf])
    (by norm_num [rndHalf])).2.2

/-- C8: the spawn velocity is exactly
`(sin(angle)·speed, cos(angle)·speed)` — sin to the x component, cos to the
y component — where `angle = π·(side + 0.5)` plus the offset
`(draw − 0.5)·(π/2)`, which lies in `[−π/4, π/4]` for a draw in `[0, 1)`;
`speed = draw·W` lies in `[0, W)` for a draw in `[0, 1)` and `W > 0`; and a
zero speed gives exactly the zero velocity. -/
theorem mkHorn_velocity (cw ch iw ih : ℝ) (options : Options) (rnd : Rand)
    (now : ℝ) (h : Horn ℝ)
    (hok : mkHorn (JSObject.canvasContext cw ch) (JSObject.imageElement iw ih)
      options rnd now = Except.ok h)
    (hcw : 0 < cw) (ha0 : 0 ≤ rnd.angleOffsetDraw) (ha1 : rnd.angleOffsetDraw < 1)
    (hs0 : 0 ≤ rnd.speedDraw) (hs1 : rnd.speedDraw < 1) :
    (h.velocity.x =
      Real.sin (Real.pi * ((if rnd.isLeftDraw < 0.5 then (1 : ℝ) else 0) + 0.5) +
          (rnd.angleOffsetDraw - 0.5) * (Real.pi / 2)) * (rnd.speedDraw * cw)) ∧
    (h.velocity.y =
      Real.cos (Real.pi * ((if rnd.isLeftDraw < 0.5 then (1 : ℝ) else 0) + 0.5) +
          (rnd.angleOffsetDraw - 0.5) * (Real.pi / 2)) * (rnd.speedDraw * cw)) ∧
    (-(Real.pi / 4) ≤ (rnd.angleOffsetDraw - 0.5) * (Real.pi / 2)) ∧
    ((rnd.angleOffsetDraw - 0.5) * (Real.pi / 2) ≤ Real.pi / 4) ∧
    (0 ≤ rnd.speedDraw * cw) ∧ (rnd.speedDraw * cw < cw) ∧
    (rnd.speedDraw * cw = 0 → h.velocity.x = 0 ∧ h.velocity.y = 0) := by
  simp only [mkHorn, Except.ok.injEq] at hok
  subst hok
  simp only [buildHorn]
  have hpi := Real.pi_pos
  refine ⟨trivial, trivial, ?_, ?_, mul_nonneg hs0 hcw.le, ?_, fun h0 => ?_⟩
  · nlinarith
  · nlinarith
  · nlinarith
  · exact ⟨by rw [h0, mul_zero], by rw [h0, mul_zero]⟩

/-- Witness for `mkHorn_velocity`: with all draws at 1/2 on an 800 by 600
surface the spawn speed lies in `[0, 800)`. -/
theorem mkHorn_velocity_witness :
    0 ≤ rndHalf.speedDraw * 800 ∧ rndHalf.speedDraw * 800 < 800 := by
  have t := mkHorn_velocity 800 600 64 64 optsNone rndHalf 0
    (buildHorn (JSObject.canvasContext 800 600) (JSObject.imageElement 64 64)
      800 600 64 64 optsNone rndHalf 0) rfl (by norm_num) (by norm_num [rndHalf])
    (by norm_num [rndHalf]) (by norm_num [rndHalf]) (by norm_num [rndHalf])
  exact ⟨t.2.2.2.2.1, t.2.2.2.2.2.1⟩

/-- C9: the constructor throws a `TypeError` if and only if the context
handle is not a `CanvasRenderingContext2D` or the image handle is not an
`HTMLImageElement`; with valid handles it always returns a constructed horn,
and the error is returned synchronously to the caller (the `Except` result —
there is no retry path). -/
theorem mkHorn_error_iff (context image : JSObject ℝ) (options : Options)
    (rnd : Rand) (now : ℝ) :
    ((∃ h, mkHorn context image options rnd now = Except.ok h) ↔
      (isCanvasContext context = true ∧ isImageElement image = true)) ∧
    ((∃ e, mkHorn context image options rnd now = Except.error e) ↔
      ¬(isCanvasContext context = true ∧ isImageElement image = true)) := by
  cases context <;> cases image <;>
    simp [mkHorn, isCanvasContext, isImageElement]

/-- C1 counterexample: a trigger message whose spawn fails the constructor's
context guard makes `handleMessage` end with an escaped `TypeError` — the
handler does not catch and drop the failed spawn; there is no catch in it. -/
theorem handleMessage_uncaught :
    (handleMessage [] JSObject.nullish imgsSample usPlain "russmoHORN" 0
        rndHalf 0).2.1 = some HornError.notCanvasContext := by
  have ht : containsTrigger "russmoHORN" = true := by decide
  simp only [handleMessage, ht, if_true, mkHorn]

/-- C1 (amended): a construction-contract violation aborts only that spawn
attempt: the failed horn is never appended (the collection is unchanged), no
sound is played, and the next frame tick behaves exactly as it would on the
pre-spawn state, so the tick loop keeps running; however the frame driver
does not catch the error — the `TypeError` escapes the message handler
(a callback separate from the frame loop) uncaught. -/
theorem handleMessage_error_drops_spawn (horns : List (Horn ℝ))
    (canvasContext : JSObject ℝ) (imgs : HornImages) (userstate : UserState)
    (message : String) (selDraw : ℝ) (rnd : Rand)
    (now lastTime time tnow : ℝ) (e : HornError)
    (htrig : containsTrigger message = true)
    (herr : mkHorn canvasContext (selectImageSound imgs userstate selDraw).1 {}
      rnd now = Except.error e) :
    handleMessage horns canvasContext imgs userstate message selDraw rnd now =
        (horns, some e, none) ∧
      tick ⟨(handleMessage horns canvasContext imgs userstate message selDraw
          rnd now).1, lastTime⟩ time tnow =
        tick ⟨horns, lastTime⟩ time tnow := by
  have h1 : handleMessage horns canvasContext imgs userstate message selDraw
      rnd now = (horns, some e, none) := by
    simp only [handleMessage, htrig, if_true, herr]
  exact ⟨h1, by rw [h1]⟩

/-- Witness for `handleMessage_error_drops_spawn`: an invalid context handle
with a triggering message leaves the collection unchanged and the next tick
unaffected. -/
theorem handleMessage_error_drops_spawn_witness :
    (handleMessage [] JSObject.nullish imgsSample usPlain "russmoHONK" 0
          rndHalf 0 =
        ([], some HornError.notCanvasContext, none)) ∧
      tick ⟨(handleMessage [] JSObject.nullish imgsSample usPlain "russmoHONK" 0
          rndHalf 0).1, 0⟩ 16 16 = tick ⟨[], 0⟩ 16 16 :=
  handleMessage_error_drops_spawn [] JSObject.nullish imgsSample usPlain
    "russmoHONK" 0 rndHalf 0 0 16 16 HornError.notCanvasContext (by decide) rfl

end HonkOverlay
